import Mathlib

/-!
Shallow embedding of the ESP32 HTTPS-to-SPIFFS downloader in
`src/https_client.c`, together with proofs of the specification's
testable properties about it.

Modelling conventions:
* Payload bytes are abstracted to their lengths: every observable the
  specification talks about (flush sizes, byte counters, the
  `storage_error` flag, retry/backoff structure) is a count or a flag,
  never the data contents.
* `fwrite`'s return value is supplied by an oracle `sinkW : Nat → Nat → Nat`
  mapping (number of prior writes in the attempt, requested size) to the
  byte count the sink reports as written.
* The `esp_spiffs_info` free-space query result arriving with each
  `HTTP_EVENT_ON_DATA` event is modelled as an `Option (Nat × Nat)` field
  of the event: `none` when the query returns a non-`ESP_OK` status, and
  `some (total, used)` when it succeeds.
* The `while` loop of the data event handler is written with an explicit
  fuel argument `len + 2`, which is proved sufficient under the handler's
  entry invariant (`copy_loop_spec` below).
* The orchestrator `https_download_file` additionally records a trace of
  observable actions (attempt starts, unlink, fopen, the session state at
  the moment `esp_http_client_perform` is invoked, backoff sleeps, client
  cleanup), so that ordering properties can be stated.
-/

namespace HttpsClient

/-- Constant `WRITE_BUFFER_SIZE` from https_client.c: capacity of the RAM write buffer. -/
def WRITE_BUFFER_SIZE : Nat := 32768

/-- Constant `MAX_RETRIES` from https_client.c. -/
def MAX_RETRIES : Nat := 3

/-- Constant `BACKOFF_BASE_MS` from https_client.c. -/
def BACKOFF_BASE_MS : Nat := 1000

/-- The module-level mutable state of https_client.c:
`file_handle` (abstracted to whether it is non-NULL), `total_bytes`,
`storage_error`, `buffer_offset`, plus two ghost instrumentation fields
recording the interaction with the storage sink during the current
attempt: `write_count` (number of `fwrite` calls so far) and
`flushed_sizes` (the byte counts passed to `fwrite`, in order). -/
structure DlState where
  file_handle : Bool
  total_bytes : Nat
  storage_error : Bool
  buffer_offset : Nat
  write_count : Nat
  flushed_sizes : List Nat
deriving Repr, DecidableEq

/-- Function `flush_write_buffer` from https_client.c: if the file is open, the
buffer is non-empty and no storage error is latched, pass `buffer_offset`
bytes to the sink; a short (or otherwise mismatched) reported write count
latches `storage_error`, a full write adds to `total_bytes`; in either
case `buffer_offset` is reset to 0.  Otherwise a no-op. -/
def flush_write_buffer (sinkW : Nat → Nat → Nat) (s : DlState) : DlState :=
  if s.file_handle = true ∧ 0 < s.buffer_offset ∧ s.storage_error = false then
    let written := sinkW s.write_count s.buffer_offset
    if written ≠ s.buffer_offset then
      { s with storage_error := true, buffer_offset := 0,
               write_count := s.write_count + 1,
               flushed_sizes := s.flushed_sizes ++ [s.buffer_offset] }
    else
      { s with total_bytes := s.total_bytes + written, buffer_offset := 0,
               write_count := s.write_count + 1,
               flushed_sizes := s.flushed_sizes ++ [s.buffer_offset] }
  else s

/-- The transport events delivered to `_http_event_handler`.  A data event
carries its payload length and the result of the per-chunk
`esp_spiffs_info` free-space query (`none` = the query itself failed). -/
inductive HttpEvent where
  | httpError
  | onConnected
  | headerSent
  | onHeader
  | onData (len : Nat) (spiffsInfo : Option (Nat × Nat))
  | onFinish
  | disconnected
  | redirect
deriving Repr, DecidableEq

/-- The quantity `free_space = total - used` computed in 32-bit `size_t` arithmetic
(subtraction wraps modulo 2^32). -/
def free_space_of (total used : Nat) : Nat :=
  (total % 2 ^ 32 + 2 ^ 32 - used % 2 ^ 32) % 2 ^ 32

/-- The `while (remaining > 0 && !storage_error)` copy loop of the
`HTTP_EVENT_ON_DATA` case: copy `min remaining space_left` bytes into the
buffer, flush when the buffer fills to exactly `WRITE_BUFFER_SIZE`,
repeat.  `fuel` is an explicit termination bound; the handler passes
`len + 2`, proved sufficient in `copy_loop_spec`. -/
def copy_loop (sinkW : Nat → Nat → Nat) : Nat → Nat → DlState → DlState
  | 0, _, s => s
  | fuel + 1, remaining, s =>
    if 0 < remaining ∧ s.storage_error = false then
      let space_left := WRITE_BUFFER_SIZE - s.buffer_offset
      let to_copy := min remaining space_left
      let s1 : DlState := { s with buffer_offset := s.buffer_offset + to_copy }
      let s2 := if s1.buffer_offset = WRITE_BUFFER_SIZE then flush_write_buffer sinkW s1 else s1
      copy_loop sinkW fuel (remaining - to_copy) s2
    else s

/-- Function `_http_event_handler` from https_client.c.  A delivered data chunk is
modelled by its length (the `evt->data` pointer of a delivered chunk is
taken to be non-NULL); the guard `0 < len` is the C `evt->data_len > 0`
check.  If the free-space query succeeds and reports less free space than
the chunk length, `storage_error` is latched and the chunk is dropped;
otherwise (including when the query itself fails) the chunk is buffered
by the copy loop.  `HTTP_EVENT_ON_FINISH` forces a flush; all other
events only log. -/
def handle_event (sinkW : Nat → Nat → Nat) (s : DlState) (evt : HttpEvent) : DlState :=
  match evt with
  | .onData len info =>
    if 0 < len ∧ s.file_handle = true ∧ s.storage_error = false then
      match info with
      | some (total, used) =>
        if free_space_of total used < len then
          { s with storage_error := true }
        else
          copy_loop sinkW (len + 2) len s
      | none => copy_loop sinkW (len + 2) len s
    else s
  | .onFinish => flush_write_buffer sinkW s
  | _ => s

/-- The sequence of event-handler invocations performed by one
`esp_http_client_perform` call, given the list of events the transport
delivers. -/
def process_events (sinkW : Nat → Nat → Nat) (evts : List HttpEvent) (s : DlState) : DlState :=
  evts.foldl (handle_event sinkW) s

/-- Environment of a single attempt: whether `esp_http_client_init`
succeeds, whether `fopen` succeeds, the status `esp_http_client_perform`
returns (`true` = `ESP_OK`), the events it delivers, and the sink's
write-count oracle. -/
structure AttemptEnv where
  init_ok : Bool
  open_ok : Bool
  perform_ok : Bool
  events : List HttpEvent
  sinkW : Nat → Nat → Nat

/-- Observable actions of the orchestrator, in program order.
`performStart` records the session state (`total_bytes`,
`storage_error`, `buffer_offset`) at the moment
`esp_http_client_perform` is invoked. -/
inductive Action where
  | attemptStart (n : Nat)
  | initClient (ok : Bool)
  | unlinkFile
  | fopenFile (ok : Bool)
  | performStart (total_bytes : Nat) (storage_error : Bool) (buffer_offset : Nat)
  | sleep (ms : Nat)
  | cleanupClient
deriving Repr, DecidableEq

/-- Result of `https_download_file`: `ESP_OK` or `ESP_FAIL`. -/
inductive DlResult where
  | ok
  | fail
deriving Repr, DecidableEq

/-- The session state right after the per-attempt reset
(`total_bytes = 0; storage_error = false; buffer_offset = 0;` with the
file freshly opened and the ghost sink log empty). -/
def attempt_start_state : DlState :=
  { file_handle := true, total_bytes := 0, storage_error := false,
    buffer_offset := 0, write_count := 0, flushed_sizes := [] }

/-- State at the end of one attempt's transport phase: the events are
processed from the reset state and the orchestrator's forced final flush
is applied (line 157 of https_client.c). -/
def attempt_run (a : AttemptEnv) : DlState :=
  flush_write_buffer a.sinkW (process_events a.sinkW a.events attempt_start_state)

/-- The retry loop of `https_download_file`, lines 120-196 of
https_client.c.  `rem` counts the loop iterations still allowed
(`MAX_RETRIES - attempt + 1`); `attempt` is the C loop counter.
Returns (action trace, result, final state). -/
def run_loop (env : Nat → AttemptEnv) : Nat → Nat → DlState → List Action × DlResult × DlState
  | 0, _, s => ([], .fail, s)
  | rem + 1, attempt, s =>
    let a := env attempt
    if a.init_ok = false then
      ([.attemptStart attempt, .initClient false], .fail, s)
    else if a.open_ok = false then
      ([.attemptStart attempt, .initClient true, .unlinkFile, .fopenFile false,
        .cleanupClient], .fail, s)
    else
      let s1 : DlState := { s with file_handle := true }
      let s2 : DlState := { s1 with
        total_bytes := 0, storage_error := false, buffer_offset := 0,
        write_count := 0, flushed_sizes := [] }
      let pre : List Action :=
        [.attemptStart attempt, .initClient true, .unlinkFile, .fopenFile true,
         .performStart s2.total_bytes s2.storage_error s2.buffer_offset]
      let s3 := process_events a.sinkW a.events s2
      let s4 := flush_write_buffer a.sinkW s3
      let s5 : DlState := { s4 with file_handle := false }
      if a.perform_ok = true ∧ s5.storage_error = false then
        (pre ++ [.cleanupClient], .ok, s5)
      else if s5.storage_error = true then
        (pre ++ [.cleanupClient], .fail, s5)
      else
        let backoff_ms := BACKOFF_BASE_MS * 2 ^ (attempt - 1)
        let rest := run_loop env rem (attempt + 1) s5
        (pre ++ [.sleep backoff_ms, .cleanupClient] ++ rest.1, rest.2.1, rest.2.2)

/-- State at process start (all globals zero-initialised, file closed). -/
def init_state : DlState :=
  { file_handle := false, total_bytes := 0, storage_error := false,
    buffer_offset := 0, write_count := 0, flushed_sizes := [] }

/-- Function `https_download_file` from https_client.c. -/
def https_download_file (env : Nat → AttemptEnv) : List Action × DlResult × DlState :=
  run_loop env MAX_RETRIES 1 init_state

/-- Attempt numbers announced in a trace, in order. -/
def attemptNums : List Action → List Nat
  | [] => []
  | .attemptStart n :: r => n :: attemptNums r
  | _ :: r => attemptNums r

/-- Backoff sleep durations occurring in a trace, in order. -/
def sleepsOf : List Action → List Nat
  | [] => []
  | .sleep ms :: r => ms :: sleepsOf r
  | _ :: r => sleepsOf r

/-- Whether an action is an invocation of the transport perform call. -/
def isPerformStart : Action → Bool
  | .performStart _ _ _ => true
  | _ => false

/-- Number of transport perform calls in a trace. -/
def performCount (tr : List Action) : Nat :=
  tr.countP isPerformStart

/-- Whether an action is the unlink of the destination path. -/
def isUnlink : Action → Bool
  | .unlinkFile => true
  | _ => false

/-- Number of unlink calls in a trace. -/
def unlinkCount (tr : List Action) : Nat :=
  tr.countP isUnlink

/-- Checks that every `fopenFile` action in the trace is immediately
preceded by an `unlinkFile` action. -/
def unlinkBeforeOpen : List Action → Bool
  | [] => true
  | .unlinkFile :: .fopenFile _ :: r => unlinkBeforeOpen r
  | .fopenFile _ :: _ => false
  | _ :: r => unlinkBeforeOpen r

/-- Total payload length of the data events in a list. -/
def sumLens : List HttpEvent → Nat
  | [] => 0
  | .onData len _ :: r => len + sumLens r
  | _ :: r => sumLens r

/-- Bytes accounted for in the current attempt: everything passed to the
sink so far plus what is still sitting in the buffer. -/
def bytes_accounted (s : DlState) : Nat :=
  s.flushed_sizes.sum + s.buffer_offset

/-- An attempt environment in which the attempt runs to the transport
layer and fails there: client init and fopen succeed, the perform call
returns a non-`ESP_OK` status, and no storage error latches during the
attempt.  This is the spec's "TransportFailure" attempt. -/
def transport_retry_attempt (a : AttemptEnv) : Prop :=
  a.init_ok = true ∧ a.open_ok = true ∧ a.perform_ok = false ∧
    (attempt_run a).storage_error = false

instance (a : AttemptEnv) : Decidable (transport_retry_attempt a) := by
  unfold transport_retry_attempt
  infer_instance

/-- Invariant maintained by the event handler within one attempt: the
file is open, the buffer is strictly below capacity while no storage
error is latched, and every size already passed to the sink is at most
the buffer capacity. -/
def buf_inv (s : DlState) : Prop :=
  s.file_handle = true ∧
  (s.storage_error = false → s.buffer_offset < WRITE_BUFFER_SIZE) ∧
  (∀ n ∈ s.flushed_sizes, n ≤ WRITE_BUFFER_SIZE)

lemma flush_file_handle (sinkW : Nat → Nat → Nat) (s : DlState) :
    (flush_write_buffer sinkW s).file_handle = s.file_handle := by
  unfold flush_write_buffer
  split
  · dsimp only
    split <;> rfl
  · rfl

lemma flush_of_error (sinkW : Nat → Nat → Nat) (s : DlState)
    (h : s.storage_error = true) : flush_write_buffer sinkW s = s := by
  unfold flush_write_buffer
  rw [if_neg]
  simp [h]

lemma flush_acct (sinkW : Nat → Nat → Nat) (s : DlState) :
    bytes_accounted (flush_write_buffer sinkW s) = bytes_accounted s := by
  unfold flush_write_buffer bytes_accounted
  split
  · rename_i hpos
    dsimp only
    split <;> simp
  · rfl

lemma flush_offset (sinkW : Nat → Nat → Nat) (s : DlState)
    (hf : s.file_handle = true) (he : s.storage_error = false) :
    (flush_write_buffer sinkW s).buffer_offset = 0 := by
  unfold flush_write_buffer
  split
  · dsimp only
    split <;> rfl
  · rename_i hneg
    simp [hf, he] at hneg
    simp [hneg]

lemma flush_flushed_mem (sinkW : Nat → Nat → Nat) (s : DlState) :
    ∀ n ∈ (flush_write_buffer sinkW s).flushed_sizes,
      n ∈ s.flushed_sizes ∨ n = s.buffer_offset := by
  unfold flush_write_buffer
  split
  · dsimp only
    split <;> intro n hn <;> simp at hn <;> tauto
  · intro n hn
    exact Or.inl hn

lemma flush_error_back (sinkW : Nat → Nat → Nat) (s : DlState)
    (h : (flush_write_buffer sinkW s).storage_error = false) :
    s.storage_error = false := by
  by_contra hc
  rw [flush_of_error sinkW s (by revert hc; cases s.storage_error <;> simp)] at h
  revert hc
  simp [h]

lemma copy_loop_of_error (sinkW : Nat → Nat → Nat) (fuel remaining : Nat) (s : DlState)
    (h : s.storage_error = true) : copy_loop sinkW fuel remaining s = s := by
  cases fuel with
  | zero => rfl
  | succ n =>
    unfold copy_loop
    rw [if_neg]
    simp [h]

lemma handle_event_of_error (sinkW : Nat → Nat → Nat) (s : DlState) (evt : HttpEvent)
    (h : s.storage_error = true) : handle_event sinkW s evt = s := by
  cases evt <;> simp only [handle_event]
  · rw [if_neg]
    simp [h]
  · exact flush_of_error sinkW s h

lemma process_events_of_error (sinkW : Nat → Nat → Nat) (evts : List HttpEvent) (s : DlState)
    (h : s.storage_error = true) : process_events sinkW evts s = s := by
  induction evts with
  | nil => rfl
  | cons e r ih =>
    show process_events sinkW r (handle_event sinkW s e) = s
    rw [handle_event_of_error sinkW s e h, ih]

lemma copy_loop_spec (sinkW : Nat → Nat → Nat) :
    ∀ fuel remaining s, s.file_handle = true → s.storage_error = false →
      s.buffer_offset < WRITE_BUFFER_SIZE →
      (∀ n ∈ s.flushed_sizes, n ≤ WRITE_BUFFER_SIZE) →
      remaining + 1 ≤ fuel →
      (copy_loop sinkW fuel remaining s).file_handle = true ∧
      (∀ n ∈ (copy_loop sinkW fuel remaining s).flushed_sizes, n ≤ WRITE_BUFFER_SIZE) ∧
      ((copy_loop sinkW fuel remaining s).storage_error = false →
        (copy_loop sinkW fuel remaining s).buffer_offset < WRITE_BUFFER_SIZE ∧
        bytes_accounted (copy_loop sinkW fuel remaining s) =
          bytes_accounted s + remaining) := by
  intro fuel
  induction fuel with
  | zero => intro remaining s _ _ _ _ hfuel; omega
  | succ fuel ih =>
    intro remaining s hf he hb hfl hfuel
    by_cases hg : 0 < remaining ∧ s.storage_error = false
    · rw [copy_loop, if_pos hg]
      dsimp only
      set to_copy := min remaining (WRITE_BUFFER_SIZE - s.buffer_offset) with hto
      have htc1 : 1 ≤ to_copy := by
        rw [hto]
        have : 1 ≤ WRITE_BUFFER_SIZE - s.buffer_offset := by omega
        omega
      have htc2 : to_copy ≤ remaining := Nat.min_le_left _ _
      have htc3 : s.buffer_offset + to_copy ≤ WRITE_BUFFER_SIZE := by
        have : to_copy ≤ WRITE_BUFFER_SIZE - s.buffer_offset := Nat.min_le_right _ _
        omega
      set s1 : DlState := { s with buffer_offset := s.buffer_offset + to_copy } with hs1
      have hs1f : s1.file_handle = true := hf
      have hs1e : s1.storage_error = false := he
      by_cases hfull : s1.buffer_offset = WRITE_BUFFER_SIZE
      · rw [if_pos hfull]
        set s2 := flush_write_buffer sinkW s1 with hs2
        have hs2f : s2.file_handle = true := by rw [hs2, flush_file_handle]; exact hs1f
        have hs2off : s2.buffer_offset = 0 := by
          rw [hs2]; exact flush_offset sinkW s1 hs1f hs1e
        have hs2fl : ∀ n ∈ s2.flushed_sizes, n ≤ WRITE_BUFFER_SIZE := by
          intro n hn
          rcases flush_flushed_mem sinkW s1 n (hs2 ▸ hn) with h | h
          · exact hfl n h
          · rw [h]
            show s1.buffer_offset ≤ WRITE_BUFFER_SIZE
            omega
        have hs2acct : bytes_accounted s2 = bytes_accounted s + to_copy := by
          rw [hs2, flush_acct]
          show s.flushed_sizes.sum + (s.buffer_offset + to_copy) = _
          unfold bytes_accounted
          omega
        by_cases herr : s2.storage_error = false
        · have := ih (remaining - to_copy) s2 hs2f herr
            (by rw [hs2off]; decide) hs2fl (by omega)
          refine ⟨this.1, this.2.1, ?_⟩
          intro hres
          refine ⟨(this.2.2 hres).1, ?_⟩
          rw [(this.2.2 hres).2, hs2acct]
          omega
        · have h2 : s2.storage_error = true := by
            revert herr; cases s2.storage_error <;> simp
          rw [copy_loop_of_error sinkW fuel _ s2 h2]
          refine ⟨hs2f, hs2fl, ?_⟩
          intro hres
          rw [hres] at h2
          cases h2
      · rw [if_neg hfull]
        have hs1b : s1.buffer_offset < WRITE_BUFFER_SIZE := by
          show s.buffer_offset + to_copy < WRITE_BUFFER_SIZE
          have : s.buffer_offset + to_copy ≠ WRITE_BUFFER_SIZE := hfull
          omega
        have := ih (remaining - to_copy) s1 hs1f hs1e hs1b hfl (by omega)
        refine ⟨this.1, this.2.1, ?_⟩
        intro hres
        refine ⟨(this.2.2 hres).1, ?_⟩
        rw [(this.2.2 hres).2]
        show s.flushed_sizes.sum + (s.buffer_offset + to_copy) + (remaining - to_copy) = _
        unfold bytes_accounted
        omega
    · rw [copy_loop, if_neg hg]
      have hrem : remaining = 0 := by
        by_contra hr
        exact hg ⟨Nat.pos_of_ne_zero hr, he⟩
      exact ⟨hf, hfl, fun _ => ⟨hb, by omega⟩⟩

/-- Payload length carried by one event. -/
def evtLen : HttpEvent → Nat
  | .onData len _ => len
  | _ => 0

lemma sumLens_cons (e : HttpEvent) (r : List HttpEvent) :
    sumLens (e :: r) = evtLen e + sumLens r := by
  cases e <;> simp [sumLens, evtLen]

lemma handle_event_spec (sinkW : Nat → Nat → Nat) (s : DlState) (evt : HttpEvent)
    (h : buf_inv s) :
    buf_inv (handle_event sinkW s evt) ∧
    ((handle_event sinkW s evt).storage_error = false →
      bytes_accounted (handle_event sinkW s evt) = bytes_accounted s + evtLen evt) := by
  obtain ⟨hf, hb, hfl⟩ := h
  cases evt with
  | onData len info =>
    have hed : handle_event sinkW s (.onData len info) =
        if 0 < len ∧ s.file_handle = true ∧ s.storage_error = false then
          (match info with
           | some (total, used) =>
             if free_space_of total used < len then { s with storage_error := true }
             else copy_loop sinkW (len + 2) len s
           | none => copy_loop sinkW (len + 2) len s)
        else s := rfl
    rw [hed]
    by_cases hg : 0 < len ∧ s.file_handle = true ∧ s.storage_error = false
    · rw [if_pos hg]
      have hcopy :
          buf_inv (copy_loop sinkW (len + 2) len s) ∧
          ((copy_loop sinkW (len + 2) len s).storage_error = false →
            bytes_accounted (copy_loop sinkW (len + 2) len s) =
              bytes_accounted s + evtLen (.onData len info)) := by
        have := copy_loop_spec sinkW (len + 2) len s hf hg.2.2 (hb hg.2.2) hfl (by omega)
        refine ⟨⟨this.1, fun herr => (this.2.2 herr).1, this.2.1⟩, ?_⟩
        intro herr
        exact (this.2.2 herr).2
      match info with
      | none => exact hcopy
      | some (total, used) =>
        dsimp only
        by_cases hfree : free_space_of total used < len
        · rw [if_pos hfree]
          refine ⟨⟨hf, ?_, hfl⟩, ?_⟩
          · intro hc
            cases hc
          · intro hc
            cases hc
        · rw [if_neg hfree]
          exact hcopy
    · rw [if_neg hg]
      refine ⟨⟨hf, hb, hfl⟩, ?_⟩
      intro herr
      have hlen : len = 0 := by
        by_contra hl
        exact hg ⟨Nat.pos_of_ne_zero hl, hf, herr⟩
      simp [evtLen, hlen]
  | onFinish =>
    have hed : handle_event sinkW s .onFinish = flush_write_buffer sinkW s := rfl
    rw [hed]
    by_cases hse : s.storage_error = true
    · rw [flush_of_error sinkW s hse]
      refine ⟨⟨hf, hb, hfl⟩, ?_⟩
      intro herr
      rw [herr] at hse
      cases hse
    · have hse' : s.storage_error = false := by
        revert hse; cases s.storage_error <;> simp
      have hoff := flush_offset sinkW s hf hse'
      refine ⟨⟨?_, ?_, ?_⟩, ?_⟩
      · rw [flush_file_handle]; exact hf
      · intro _
        rw [hoff]
        decide
      · intro n hn
        rcases flush_flushed_mem sinkW s n hn with hm | hm
        · exact hfl n hm
        · rw [hm]
          have := hb hse'
          omega
      · intro _
        rw [flush_acct]
        simp [evtLen]
  | httpError => exact ⟨⟨hf, hb, hfl⟩, fun _ => by simp [handle_event, evtLen]⟩
  | onConnected => exact ⟨⟨hf, hb, hfl⟩, fun _ => by simp [handle_event, evtLen]⟩
  | headerSent => exact ⟨⟨hf, hb, hfl⟩, fun _ => by simp [handle_event, evtLen]⟩
  | onHeader => exact ⟨⟨hf, hb, hfl⟩, fun _ => by simp [handle_event, evtLen]⟩
  | disconnected => exact ⟨⟨hf, hb, hfl⟩, fun _ => by simp [handle_event, evtLen]⟩
  | redirect => exact ⟨⟨hf, hb, hfl⟩, fun _ => by simp [handle_event, evtLen]⟩

lemma process_events_spec (sinkW : Nat → Nat → Nat) (evts : List HttpEvent) :
    ∀ s, buf_inv s →
      buf_inv (process_events sinkW evts s) ∧
      ((process_events sinkW evts s).storage_error = false →
        bytes_accounted (process_events sinkW evts s) =
          bytes_accounted s + sumLens evts) := by
  induction evts with
  | nil =>
    intro s h
    exact ⟨h, fun _ => by simp [process_events, sumLens]⟩
  | cons e r ih =>
    intro s h
    have hstep := handle_event_spec sinkW s e h
    have hrec := ih (handle_event sinkW s e) hstep.1
    have heq : process_events sinkW (e :: r) s =
        process_events sinkW r (handle_event sinkW s e) := rfl
    rw [heq]
    refine ⟨hrec.1, ?_⟩
    intro herr
    have hmid : (handle_event sinkW s e).storage_error = false := by
      by_contra hm
      have hm' : (handle_event sinkW s e).storage_error = true := by
        revert hm; cases (handle_event sinkW s e).storage_error <;> simp
      rw [process_events_of_error sinkW r _ hm'] at herr
      rw [herr] at hm'
      cases hm'
    rw [hrec.2 herr, hstep.2 hmid, sumLens_cons]
    omega

/-- C1 (buffer conservation): for every sequence of transport events in
one attempt, if no storage error has been latched by the end of the
attempt's forced final flush, then the byte counts passed to the storage
sink across all flush calls sum to exactly the total payload length of
the data events, and every individual flush passes at most
`WRITE_BUFFER_SIZE` (32768) bytes to the sink.  (A chunk that overfills
the buffer is handled by the mid-copy flush of the copy loop, which this
accounting covers.) -/
theorem C1_buffer_conservation (sinkW : Nat → Nat → Nat) (events : List HttpEvent)
    (h : (flush_write_buffer sinkW
      (process_events sinkW events attempt_start_state)).storage_error = false) :
    (flush_write_buffer sinkW
      (process_events sinkW events attempt_start_state)).flushed_sizes.sum
        = sumLens events ∧
    ∀ n ∈ (flush_write_buffer sinkW
      (process_events sinkW events attempt_start_state)).flushed_sizes,
        n ≤ WRITE_BUFFER_SIZE := by
  have hstart : buf_inv attempt_start_state := by
    refine ⟨rfl, fun _ => by decide, ?_⟩
    intro n hn
    cases hn
  have hspec := process_events_spec sinkW events attempt_start_state hstart
  set s3 := process_events sinkW events attempt_start_state with hs3
  have hmid : s3.storage_error = false := flush_error_back sinkW s3 h
  have hacct : bytes_accounted s3 = sumLens events := by
    have := hspec.2 hmid
    rw [this]
    simp [bytes_accounted, attempt_start_state]
  constructor
  · have h1 : bytes_accounted (flush_write_buffer sinkW s3) = sumLens events := by
      rw [flush_acct, hacct]
    have h2 : (flush_write_buffer sinkW s3).buffer_offset = 0 :=
      flush_offset sinkW s3 hspec.1.1 hmid
    unfold bytes_accounted at h1
    omega
  · intro n hn
    rcases flush_flushed_mem sinkW s3 n hn with hm | hm
    · exact hspec.1.2.2 n hm
    · rw [hm]
      have := hspec.1.2.1 hmid
      omega

/-- Witness for C1 at a concrete event sequence: two chunks of 3 and 2
bytes, an ample free-space report, a fully honest sink. -/
theorem C1_buffer_conservation_witness :
    (flush_write_buffer (fun _ w => w)
      (process_events (fun _ w => w)
        [HttpEvent.onData 3 none, HttpEvent.onData 2 (some (100, 0))]
        attempt_start_state)).storage_error = false ∧
    ((flush_write_buffer (fun _ w => w)
      (process_events (fun _ w => w)
        [HttpEvent.onData 3 none, HttpEvent.onData 2 (some (100, 0))]
        attempt_start_state)).flushed_sizes.sum
        = sumLens [HttpEvent.onData 3 none, HttpEvent.onData 2 (some (100, 0))] ∧
    ∀ n ∈ (flush_write_buffer (fun _ w => w)
      (process_events (fun _ w => w)
        [HttpEvent.onData 3 none, HttpEvent.onData 2 (some (100, 0))]
        attempt_start_state)).flushed_sizes,
        n ≤ WRITE_BUFFER_SIZE) :=
  ⟨by decide, C1_buffer_conservation (fun _ w => w)
    [HttpEvent.onData 3 none, HttpEvent.onData 2 (some (100, 0))] (by decide)⟩

/-- One attempt's state after `fclose` (`file_handle = NULL`). -/
def attempt_end_state (a : AttemptEnv) : DlState :=
  { attempt_run a with file_handle := false }

lemma run_loop_exhausted (env : Nat → AttemptEnv) (rem attempt : Nat) (s : DlState)
    (hrem : rem = 0) : run_loop env rem attempt s = ([], .fail, s) := by
  subst hrem
  rfl

lemma run_loop_init_fail (env : Nat → AttemptEnv) (rem attempt : Nat) (s : DlState)
    (hrem : rem ≠ 0) (hi : (env attempt).init_ok = false) :
    run_loop env rem attempt s =
      ([.attemptStart attempt, .initClient false], .fail, s) := by
  obtain ⟨n, rfl⟩ : ∃ n, rem = n + 1 := ⟨rem - 1, by omega⟩
  rw [run_loop]
  simp only [hi]
  rfl

lemma run_loop_open_fail (env : Nat → AttemptEnv) (rem attempt : Nat) (s : DlState)
    (hrem : rem ≠ 0) (hi : (env attempt).init_ok = true)
    (ho : (env attempt).open_ok = false) :
    run_loop env rem attempt s =
      ([.attemptStart attempt, .initClient true, .unlinkFile, .fopenFile false,
        .cleanupClient], .fail, s) := by
  obtain ⟨n, rfl⟩ : ∃ n, rem = n + 1 := ⟨rem - 1, by omega⟩
  rw [run_loop]
  simp only [hi, ho]
  rfl

lemma run_loop_success (env : Nat → AttemptEnv) (rem attempt : Nat) (s : DlState)
    (hrem : rem ≠ 0) (hi : (env attempt).init_ok = true)
    (ho : (env attempt).open_ok = true) (hp : (env attempt).perform_ok = true)
    (hs : (attempt_run (env attempt)).storage_error = false) :
    run_loop env rem attempt s =
      ([.attemptStart attempt, .initClient true, .unlinkFile, .fopenFile true,
        .performStart 0 false 0, .cleanupClient], .ok,
       attempt_end_state (env attempt)) := by
  obtain ⟨n, rfl⟩ : ∃ n, rem = n + 1 := ⟨rem - 1, by omega⟩
  rw [run_loop]
  dsimp only
  split
  · rename_i h
    rw [hi] at h
    exact Bool.noConfusion h
  split
  · rename_i h
    rw [ho] at h
    exact Bool.noConfusion h
  split
  · rfl
  · rename_i h
    exact absurd ⟨hp, hs⟩ h

lemma run_loop_storage_error (env : Nat → AttemptEnv) (rem attempt : Nat) (s : DlState)
    (hrem : rem ≠ 0) (hi : (env attempt).init_ok = true)
    (ho : (env attempt).open_ok = true)
    (hs : (attempt_run (env attempt)).storage_error = true) :
    run_loop env rem attempt s =
      ([.attemptStart attempt, .initClient true, .unlinkFile, .fopenFile true,
        .performStart 0 false 0, .cleanupClient], .fail,
       attempt_end_state (env attempt)) := by
  obtain ⟨n, rfl⟩ : ∃ n, rem = n + 1 := ⟨rem - 1, by omega⟩
  rw [run_loop]
  dsimp only
  split
  · rename_i h
    rw [hi] at h
    exact Bool.noConfusion h
  split
  · rename_i h
    rw [ho] at h
    exact Bool.noConfusion h
  split
  · rename_i h
    have h2 : (attempt_run (env attempt)).storage_error = false := h.2
    rw [hs] at h2
    exact Bool.noConfusion h2
  split
  · rfl
  · rename_i h
    exact absurd hs h

lemma run_loop_retry (env : Nat → AttemptEnv) (rem attempt : Nat) (s : DlState)
    (hrem : rem ≠ 0) (hi : (env attempt).init_ok = true)
    (ho : (env attempt).open_ok = true) (hp : (env attempt).perform_ok = false)
    (hs : (attempt_run (env attempt)).storage_error = false) :
    run_loop env rem attempt s =
      ([.attemptStart attempt, .initClient true, .unlinkFile, .fopenFile true,
        .performStart 0 false 0,
        .sleep (BACKOFF_BASE_MS * 2 ^ (attempt - 1)), .cleanupClient]
        ++ (run_loop env (rem - 1) (attempt + 1) (attempt_end_state (env attempt))).1,
       (run_loop env (rem - 1) (attempt + 1) (attempt_end_state (env attempt))).2.1,
       (run_loop env (rem - 1) (attempt + 1) (attempt_end_state (env attempt))).2.2) := by
  obtain ⟨n, rfl⟩ : ∃ n, rem = n + 1 := ⟨rem - 1, by omega⟩
  rw [run_loop]
  dsimp only
  simp only [Nat.add_sub_cancel]
  split
  · rename_i h
    rw [hi] at h
    exact Bool.noConfusion h
  split
  · rename_i h
    rw [ho] at h
    exact Bool.noConfusion h
  split
  · rename_i h
    have h1 : (env attempt).perform_ok = true := h.1
    rw [hp] at h1
    exact Bool.noConfusion h1
  split
  · rename_i h
    have h2 : (attempt_run (env attempt)).storage_error = true := h
    rw [hs] at h2
    exact Bool.noConfusion h2
  · rfl

lemma run_loop_performStart_reset (env : Nat → AttemptEnv) :
    ∀ rem attempt s tb err off,
      Action.performStart tb err off ∈ (run_loop env rem attempt s).1 →
      tb = 0 ∧ err = false ∧ off = 0 := by
  intro rem
  induction rem with
  | zero =>
    intro attempt s tb err off h
    cases h
  | succ n ih =>
    intro attempt s tb err off h
    rw [run_loop] at h
    dsimp only at h
    split at h
    · simp at h
    split at h
    · simp at h
    split at h
    · simp at h
      exact h
    split at h
    · simp at h
      exact h
    · simp at h
      rcases h with h | h
      · exact h
      · exact ih (attempt + 1) _ tb err off h

/-- C7 (no cross-attempt carry-over): at the moment the transport perform
call of any attempt is invoked, the session state has been fully reset:
`total_bytes = 0`, `storage_error = false`, `buffer_offset = 0`.  No
buffered-but-unwritten bytes and no latched error survive into the next
attempt. -/
theorem C7_session_reset_before_perform (env : Nat → AttemptEnv)
    (tb off : Nat) (err : Bool)
    (h : Action.performStart tb err off ∈ (https_download_file env).1) :
    tb = 0 ∧ err = false ∧ off = 0 :=
  run_loop_performStart_reset env MAX_RETRIES 1 init_state tb err off h

/-- Witness for C7: a concrete run whose trace contains a perform call,
and the reset holds there. -/
theorem C7_session_reset_before_perform_witness :
    Action.performStart 0 false 0 ∈ (https_download_file
      (fun _ => AttemptEnv.mk true true false [] (fun _ w => w))).1 ∧
    (0 = 0 ∧ false = false ∧ 0 = 0) :=
  ⟨by decide, C7_session_reset_before_perform
    (fun _ => AttemptEnv.mk true true false [] (fun _ w => w)) 0 0 false (by decide)⟩

/-- C5 (retry exhaustion): if the first `MAX_RETRIES` attempts all end in
transport failure with no storage error latched, the operation performs
exactly attempts 1, 2, 3 and returns failure, with no further attempt. -/
theorem C5_retry_exhaustion (env : Nat → AttemptEnv)
    (h : ∀ j, 1 ≤ j → j ≤ MAX_RETRIES → transport_retry_attempt (env j)) :
    (https_download_file env).2.1 = DlResult.fail ∧
    attemptNums (https_download_file env).1 = [1, 2, 3] := by
  obtain ⟨h1i, h1o, h1p, h1s⟩ := h 1 (by omega) (by decide)
  obtain ⟨h2i, h2o, h2p, h2s⟩ := h 2 (by omega) (by decide)
  obtain ⟨h3i, h3o, h3p, h3s⟩ := h 3 (by omega) (by decide)
  have e : https_download_file env = run_loop env 3 1 init_state := rfl
  rw [e, run_loop_retry env 3 1 init_state (by decide) h1i h1o h1p h1s,
      run_loop_retry env (3 - 1) 2 (attempt_end_state (env 1)) (by decide) h2i h2o h2p h2s,
      run_loop_retry env (3 - 1 - 1) 3 (attempt_end_state (env 2)) (by decide) h3i h3o h3p h3s,
      run_loop_exhausted env (3 - 1 - 1 - 1) (3 + 1) (attempt_end_state (env 3)) (by decide)]
  exact ⟨rfl, rfl⟩

/-- Witness for C5: every attempt fails at the transport layer. -/
theorem C5_retry_exhaustion_witness :
    (∀ j, 1 ≤ j → j ≤ MAX_RETRIES → transport_retry_attempt
      ((fun _ => AttemptEnv.mk true true false [] (fun _ w => w)) j)) ∧
    ((https_download_file
        (fun _ => AttemptEnv.mk true true false [] (fun _ w => w))).2.1 = DlResult.fail ∧
      attemptNums (https_download_file
        (fun _ => AttemptEnv.mk true true false [] (fun _ w => w))).1 = [1, 2, 3]) :=
  ⟨fun _ _ _ => (by decide : transport_retry_attempt (AttemptEnv.mk true true false [] (fun _ w => w))),
   C5_retry_exhaustion _ (fun _ _ _ => (by decide : transport_retry_attempt (AttemptEnv.mk true true false [] (fun _ w => w))))⟩

/-- C3 (code evaluated at the failing input): when all three attempts
fail at the transport layer with no storage error, the code performs
three backoff sleeps of 1000, 2000 and 4000 ms — including one after the
final attempt, just before returning the final failure — although no
further attempt follows.  This contradicts the specification's "if this
was the last allowed attempt, return a fatal transport failure"
(without sleeping); the code even logs "Retrying in 4000 ms" and then
never retries. -/
theorem C3_backoff_sleep_after_final_attempt :
    sleepsOf (https_download_file
      (fun _ => AttemptEnv.mk true true false [] (fun _ w => w))).1
      = [1000, 2000, 4000] ∧
    attemptNums (https_download_file
      (fun _ => AttemptEnv.mk true true false [] (fun _ w => w))).1 = [1, 2, 3] ∧
    (https_download_file
      (fun _ => AttemptEnv.mk true true false [] (fun _ w => w))).2.1 = DlResult.fail := by
  refine ⟨?_, ?_, ?_⟩ <;> decide

/-- C4 (exponential backoff): if attempts 1..k (k ≤ MAX_RETRIES) all fail
at the transport layer with no storage error, then the first k backoff
sleeps are `BACKOFF_BASE_MS * 2 ^ 0, ..., BACKOFF_BASE_MS * 2 ^ (k-1)`:
the sleep following failed attempt i (and hence preceding attempt i+1,
when one follows) is `BACKOFF_BASE_MS * 2 ^ (i-1)`. -/
theorem C4_exponential_backoff (env : Nat → AttemptEnv) (k : Nat)
    (hk1 : 1 ≤ k) (hk3 : k ≤ MAX_RETRIES)
    (hall : ∀ j, 1 ≤ j → j ≤ k → transport_retry_attempt (env j)) :
    (sleepsOf (https_download_file env).1).take k
      = (List.range k).map (fun i => BACKOFF_BASE_MS * 2 ^ i) := by
  have e : https_download_file env = run_loop env 3 1 init_state := rfl
  have hk3' : k ≤ 3 := hk3
  interval_cases k
  · obtain ⟨h1i, h1o, h1p, h1s⟩ := hall 1 (by omega) (by omega)
    rw [e, run_loop_retry env 3 1 init_state (by decide) h1i h1o h1p h1s]
    rfl
  · obtain ⟨h1i, h1o, h1p, h1s⟩ := hall 1 (by omega) (by omega)
    obtain ⟨h2i, h2o, h2p, h2s⟩ := hall 2 (by omega) (by omega)
    rw [e, run_loop_retry env 3 1 init_state (by decide) h1i h1o h1p h1s,
        run_loop_retry env (3 - 1) 2 (attempt_end_state (env 1)) (by decide) h2i h2o h2p h2s]
    rfl
  · obtain ⟨h1i, h1o, h1p, h1s⟩ := hall 1 (by omega) (by omega)
    obtain ⟨h2i, h2o, h2p, h2s⟩ := hall 2 (by omega) (by omega)
    obtain ⟨h3i, h3o, h3p, h3s⟩ := hall 3 (by omega) (by omega)
    rw [e, run_loop_retry env 3 1 init_state (by decide) h1i h1o h1p h1s,
        run_loop_retry env (3 - 1) 2 (attempt_end_state (env 1)) (by decide) h2i h2o h2p h2s,
        run_loop_retry env (3 - 1 - 1) 3 (attempt_end_state (env 2)) (by decide) h3i h3o h3p h3s]
    rfl

/-- Witness for C4: three consecutive transport failures; the three
backoff sleeps are the base, twice the base, four times the base. -/
theorem C4_exponential_backoff_witness :
    (∀ j, 1 ≤ j → j ≤ 3 → transport_retry_attempt
      ((fun _ => AttemptEnv.mk true true false [] (fun _ w => w)) j)) ∧
    (sleepsOf (https_download_file
      (fun _ => AttemptEnv.mk true true false [] (fun _ w => w))).1).take 3
      = (List.range 3).map (fun i => BACKOFF_BASE_MS * 2 ^ i) :=
  ⟨fun _ _ _ => (by decide : transport_retry_attempt (AttemptEnv.mk true true false [] (fun _ w => w))),
   C4_exponential_backoff _ 3 (by omega) (by decide) (fun _ _ _ => (by decide : transport_retry_attempt (AttemptEnv.mk true true false [] (fun _ w => w))))⟩

/-- C2 (non-retry on storage failure): if attempt k latches a storage
error (attempts before it being ordinary transport failures), the
operation ends with failure right after attempt k: exactly attempts
1..k occur, only k-1 backoff sleeps occur (none after attempt k), and
the last action is the transport-client cleanup.  The transport status
of attempt k is unconstrained. -/
theorem C2_storage_error_no_retry (env : Nat → AttemptEnv) (k : Nat)
    (hk1 : 1 ≤ k) (hk3 : k ≤ MAX_RETRIES)
    (hprev : ∀ j, 1 ≤ j → j < k → transport_retry_attempt (env j))
    (hi : (env k).init_ok = true) (ho : (env k).open_ok = true)
    (hs : (attempt_run (env k)).storage_error = true) :
    (https_download_file env).2.1 = DlResult.fail ∧
    attemptNums (https_download_file env).1 = List.range' 1 k ∧
    (sleepsOf (https_download_file env).1).length = k - 1 ∧
    (https_download_file env).1.getLast? = some Action.cleanupClient := by
  have e : https_download_file env = run_loop env 3 1 init_state := rfl
  have hk3' : k ≤ 3 := hk3
  interval_cases k
  · rw [e, run_loop_storage_error env 3 1 init_state (by decide) hi ho hs]
    exact ⟨rfl, rfl, rfl, rfl⟩
  · obtain ⟨h1i, h1o, h1p, h1s⟩ := hprev 1 (by omega) (by omega)
    rw [e, run_loop_retry env 3 1 init_state (by decide) h1i h1o h1p h1s,
        run_loop_storage_error env (3 - 1) 2 (attempt_end_state (env 1)) (by decide) hi ho hs]
    exact ⟨rfl, rfl, rfl, rfl⟩
  · obtain ⟨h1i, h1o, h1p, h1s⟩ := hprev 1 (by omega) (by omega)
    obtain ⟨h2i, h2o, h2p, h2s⟩ := hprev 2 (by omega) (by omega)
    rw [e, run_loop_retry env 3 1 init_state (by decide) h1i h1o h1p h1s,
        run_loop_retry env (3 - 1) 2 (attempt_end_state (env 1)) (by decide) h2i h2o h2p h2s,
        run_loop_storage_error env (3 - 1 - 1) 3 (attempt_end_state (env 2)) (by decide) hi ho hs]
    exact ⟨rfl, rfl, rfl, rfl⟩

/-- Witness for C2: the first attempt sees a 5-byte chunk with only 2
bytes of reported free space, latching the storage error; the run stops
after attempt 1 with no sleep. -/
theorem C2_storage_error_no_retry_witness :
    (attempt_run ((fun _ => AttemptEnv.mk true true false
        [HttpEvent.onData 5 (some (2, 0))] (fun _ w => w)) 1)).storage_error = true ∧
    ((https_download_file (fun _ => AttemptEnv.mk true true false
        [HttpEvent.onData 5 (some (2, 0))] (fun _ w => w))).2.1 = DlResult.fail ∧
      attemptNums (https_download_file (fun _ => AttemptEnv.mk true true false
        [HttpEvent.onData 5 (some (2, 0))] (fun _ w => w))).1 = List.range' 1 1 ∧
      (sleepsOf (https_download_file (fun _ => AttemptEnv.mk true true false
        [HttpEvent.onData 5 (some (2, 0))] (fun _ w => w))).1).length = 1 - 1 ∧
      (https_download_file (fun _ => AttemptEnv.mk true true false
        [HttpEvent.onData 5 (some (2, 0))] (fun _ w => w))).1.getLast?
          = some Action.cleanupClient) :=
  ⟨by decide,
   C2_storage_error_no_retry _ 1 (by omega) (by decide)
     (fun j h1 h2 => absurd (Nat.lt_of_lt_of_le h2 h1) (Nat.lt_irrefl j))
     (by decide) (by decide) (by decide)⟩

/-- C8 (storage-open failure is immediately fatal): if `fopen` fails on
attempt k (attempts before it being ordinary transport failures), the
operation returns failure at once: exactly attempts 1..k occur, no
backoff sleep follows attempt k, no transport perform call is made for
attempt k, and the destination file is unlinked once per attempt,
immediately before each fopen. -/
theorem C8_open_failure_immediate (env : Nat → AttemptEnv) (k : Nat)
    (hk1 : 1 ≤ k) (hk3 : k ≤ MAX_RETRIES)
    (hprev : ∀ j, 1 ≤ j → j < k → transport_retry_attempt (env j))
    (hi : (env k).init_ok = true) (ho : (env k).open_ok = false) :
    (https_download_file env).2.1 = DlResult.fail ∧
    attemptNums (https_download_file env).1 = List.range' 1 k ∧
    (sleepsOf (https_download_file env).1).length = k - 1 ∧
    performCount (https_download_file env).1 = k - 1 ∧
    unlinkCount (https_download_file env).1 = k ∧
    unlinkBeforeOpen (https_download_file env).1 = true := by
  have e : https_download_file env = run_loop env 3 1 init_state := rfl
  have hk3' : k ≤ 3 := hk3
  interval_cases k
  · rw [e, run_loop_open_fail env 3 1 init_state (by decide) hi ho]
    exact ⟨rfl, rfl, rfl, rfl, rfl, rfl⟩
  · obtain ⟨h1i, h1o, h1p, h1s⟩ := hprev 1 (by omega) (by omega)
    rw [e, run_loop_retry env 3 1 init_state (by decide) h1i h1o h1p h1s,
        run_loop_open_fail env (3 - 1) 2 (attempt_end_state (env 1)) (by decide) hi ho]
    exact ⟨rfl, rfl, rfl, rfl, rfl, rfl⟩
  · obtain ⟨h1i, h1o, h1p, h1s⟩ := hprev 1 (by omega) (by omega)
    obtain ⟨h2i, h2o, h2p, h2s⟩ := hprev 2 (by omega) (by omega)
    rw [e, run_loop_retry env 3 1 init_state (by decide) h1i h1o h1p h1s,
        run_loop_retry env (3 - 1) 2 (attempt_end_state (env 1)) (by decide) h2i h2o h2p h2s,
        run_loop_open_fail env (3 - 1 - 1) 3 (attempt_end_state (env 2)) (by decide) hi ho]
    exact ⟨rfl, rfl, rfl, rfl, rfl, rfl⟩

/-- Witness for C8: fopen fails on the very first attempt; zero perform
calls and zero sleeps occur. -/
theorem C8_open_failure_immediate_witness :
    ((fun _ => AttemptEnv.mk true false false [] (fun _ w => w)) 1).open_ok = false ∧
    ((https_download_file (fun _ => AttemptEnv.mk true false false
        [] (fun _ w => w))).2.1 = DlResult.fail ∧
      attemptNums (https_download_file (fun _ => AttemptEnv.mk true false false
        [] (fun _ w => w))).1 = List.range' 1 1 ∧
      (sleepsOf (https_download_file (fun _ => AttemptEnv.mk true false false
        [] (fun _ w => w))).1).length = 1 - 1 ∧
      performCount (https_download_file (fun _ => AttemptEnv.mk true false false
        [] (fun _ w => w))).1 = 1 - 1 ∧
      unlinkCount (https_download_file (fun _ => AttemptEnv.mk true false false
        [] (fun _ w => w))).1 = 1 ∧
      unlinkBeforeOpen (https_download_file (fun _ => AttemptEnv.mk true false false
        [] (fun _ w => w))).1 = true) :=
  ⟨by decide,
   C8_open_failure_immediate _ 1 (by omega) (by decide)
     (fun j h1 h2 => absurd (Nat.lt_of_lt_of_le h2 h1) (Nat.lt_irrefl j))
     (by decide) (by decide)⟩

/-- C6 (storage-error latching and data suppression): within an attempt,
(1) once `storage_error` is set, processing any further events leaves the
whole state unchanged — in particular the flag is never cleared and no
data event mutates the buffer or the byte counter; (2) a single data
event arriving with the flag set is dropped with no state change at all;
(3) with the flag unset, each data event consults its own (per-chunk)
free-space query result, and when the reported free space is smaller
than the chunk length the error is latched and the chunk is not
buffered (only `storage_error` changes). -/
theorem C6_storage_error_latching (sinkW : Nat → Nat → Nat) (s : DlState) :
    (∀ evts, s.storage_error = true → process_events sinkW evts s = s) ∧
    (∀ len info, s.storage_error = true →
      handle_event sinkW s (HttpEvent.onData len info) = s) ∧
    (∀ len total used, s.storage_error = false → s.file_handle = true → 0 < len →
      free_space_of total used < len →
      handle_event sinkW s (HttpEvent.onData len (some (total, used)))
        = { s with storage_error := true }) := by
  refine ⟨?_, ?_, ?_⟩
  · intro evts h
    exact process_events_of_error sinkW evts s h
  · intro len info h
    exact handle_event_of_error sinkW s (HttpEvent.onData len info) h
  · intro len total used he hf hl hfree
    have hed : handle_event sinkW s (.onData len (some (total, used))) =
        if 0 < len ∧ s.file_handle = true ∧ s.storage_error = false then
          (if free_space_of total used < len then { s with storage_error := true }
           else copy_loop sinkW (len + 2) len s)
        else s := rfl
    rw [hed, if_pos ⟨hl, hf, he⟩, if_pos hfree]

/-- Witness for C6: part (1)-(2) at a latched state with a data event and
a finish event; part (3) at the spec's Scenario B numbers (2000-byte
chunk, 1000 bytes reported free). -/
theorem C6_storage_error_latching_witness :
    (({ attempt_start_state with storage_error := true } : DlState).storage_error = true ∧
      process_events (fun _ w => w) [HttpEvent.onData 7 none, HttpEvent.onFinish]
        { attempt_start_state with storage_error := true }
        = { attempt_start_state with storage_error := true }) ∧
    (attempt_start_state.storage_error = false ∧
      handle_event (fun _ w => w) attempt_start_state
        (HttpEvent.onData 2000 (some (1000, 0)))
        = { attempt_start_state with storage_error := true }) :=
  ⟨⟨by decide,
    (C6_storage_error_latching (fun _ w => w)
      { attempt_start_state with storage_error := true }).1
      [HttpEvent.onData 7 none, HttpEvent.onFinish] (by decide)⟩,
   ⟨by decide,
    (C6_storage_error_latching (fun _ w => w) attempt_start_state).2.2
      2000 1000 0 (by decide) (by decide) (by decide) (by decide)⟩⟩

/-- C9 (flush discards bytes on failure): a flush that actually performs
a write (file open, buffer non-empty, no latched error) always resets the
fill level to 0, whatever the sink reports; and on a short write it
latches `storage_error` and does not increment `total_bytes` — the
buffered bytes are discarded, not retained or retried. -/
theorem C9_flush_discards_on_failure (sinkW : Nat → Nat → Nat) (s : DlState)
    (hf : s.file_handle = true) (hb : 0 < s.buffer_offset)
    (he : s.storage_error = false) :
    (flush_write_buffer sinkW s).buffer_offset = 0 ∧
    (sinkW s.write_count s.buffer_offset < s.buffer_offset →
      (flush_write_buffer sinkW s).storage_error = true ∧
      (flush_write_buffer sinkW s).total_bytes = s.total_bytes) := by
  constructor
  · exact flush_offset sinkW s hf he
  · intro hshort
    unfold flush_write_buffer
    rw [if_pos ⟨hf, hb, he⟩]
    dsimp only
    rw [if_pos (by omega : sinkW s.write_count s.buffer_offset ≠ s.buffer_offset)]
    exact ⟨rfl, rfl⟩

/-- Witness for C9: 5 buffered bytes, the sink reports only 3 written. -/
theorem C9_flush_discards_on_failure_witness :
    (({ attempt_start_state with buffer_offset := 5, total_bytes := 7 } : DlState).file_handle
        = true ∧
      0 < ({ attempt_start_state with buffer_offset := 5, total_bytes := 7 } : DlState).buffer_offset ∧
      ({ attempt_start_state with buffer_offset := 5, total_bytes := 7 } : DlState).storage_error
        = false) ∧
    ((flush_write_buffer (fun _ _ => 3)
        { attempt_start_state with buffer_offset := 5, total_bytes := 7 }).buffer_offset = 0 ∧
      ((fun _ _ => 3 : Nat → Nat → Nat)
          ({ attempt_start_state with buffer_offset := 5, total_bytes := 7 } : DlState).write_count
          ({ attempt_start_state with buffer_offset := 5, total_bytes := 7 } : DlState).buffer_offset
          < ({ attempt_start_state with buffer_offset := 5, total_bytes := 7 } : DlState).buffer_offset →
        (flush_write_buffer (fun _ _ => 3)
          { attempt_start_state with buffer_offset := 5, total_bytes := 7 }).storage_error = true ∧
        (flush_write_buffer (fun _ _ => 3)
          { attempt_start_state with buffer_offset := 5, total_bytes := 7 }).total_bytes
          = ({ attempt_start_state with buffer_offset := 5, total_bytes := 7 } : DlState).total_bytes)) :=
  ⟨⟨by decide, by decide, by decide⟩,
   C9_flush_discards_on_failure (fun _ _ => 3)
     { attempt_start_state with buffer_offset := 5, total_bytes := 7 }
     (by decide) (by decide) (by decide)⟩

/-- C10 (free-space query failure is ignored): on a data event whose
free-space query itself failed (`none`), the handler behaves exactly as
if ample space had been reported: the chunk goes straight to the copy
loop, no storage error is latched by the check, and (under the handler's
invariant) if no write error occurs the whole chunk is accounted for —
it is buffered, not dropped. -/
theorem C10_free_space_query_failure_ignored (sinkW : Nat → Nat → Nat) (s : DlState)
    (len : Nat) (hl : 0 < len) (hlen : len < 2 ^ 32)
    (he : s.storage_error = false) (hinv : buf_inv s) :
    handle_event sinkW s (HttpEvent.onData len none)
        = handle_event sinkW s (HttpEvent.onData len (some (len, 0))) ∧
    handle_event sinkW s (HttpEvent.onData len none)
        = copy_loop sinkW (len + 2) len s ∧
    ((handle_event sinkW s (HttpEvent.onData len none)).storage_error = false →
      bytes_accounted (handle_event sinkW s (HttpEvent.onData len none))
        = bytes_accounted s + len) := by
  have hf : s.file_handle = true := hinv.1
  have hnone : handle_event sinkW s (.onData len none) =
      copy_loop sinkW (len + 2) len s := by
    have hed : handle_event sinkW s (.onData len none) =
        if 0 < len ∧ s.file_handle = true ∧ s.storage_error = false then
          copy_loop sinkW (len + 2) len s
        else s := rfl
    rw [hed, if_pos ⟨hl, hf, he⟩]
  have hfs : free_space_of len 0 = len := by
    unfold free_space_of
    rw [Nat.zero_mod, Nat.sub_zero, Nat.mod_eq_of_lt hlen, Nat.add_mod_right,
        Nat.mod_eq_of_lt hlen]
  have hsome : handle_event sinkW s (.onData len (some (len, 0))) =
      copy_loop sinkW (len + 2) len s := by
    have hed : handle_event sinkW s (.onData len (some (len, 0))) =
        if 0 < len ∧ s.file_handle = true ∧ s.storage_error = false then
          (if free_space_of len 0 < len then { s with storage_error := true }
           else copy_loop sinkW (len + 2) len s)
        else s := rfl
    rw [hed, if_pos ⟨hl, hf, he⟩, if_neg (by rw [hfs]; omega)]
  refine ⟨by rw [hnone, hsome], hnone, ?_⟩
  intro herr
  have := (handle_event_spec sinkW s (.onData len none) hinv).2 herr
  rw [this]
  rfl

/-- Witness for C10: a 5-byte chunk whose free-space query failed, from
the fresh attempt state; the chunk is fully buffered. -/
theorem C10_free_space_query_failure_ignored_witness :
    (0 < 5 ∧ (5 : Nat) < 2 ^ 32 ∧ attempt_start_state.storage_error = false ∧
      buf_inv attempt_start_state) ∧
    (handle_event (fun _ w => w) attempt_start_state (HttpEvent.onData 5 none)
        = handle_event (fun _ w => w) attempt_start_state (HttpEvent.onData 5 (some (5, 0))) ∧
      handle_event (fun _ w => w) attempt_start_state (HttpEvent.onData 5 none)
        = copy_loop (fun _ w => w) (5 + 2) 5 attempt_start_state ∧
      ((handle_event (fun _ w => w) attempt_start_state
          (HttpEvent.onData 5 none)).storage_error = false →
        bytes_accounted (handle_event (fun _ w => w) attempt_start_state
          (HttpEvent.onData 5 none))
          = bytes_accounted attempt_start_state + 5)) :=
  ⟨⟨by decide, by decide, by decide,
    ⟨rfl, fun _ => by decide, fun n hn => absurd hn (List.not_mem_nil n)⟩⟩,
   C10_free_space_query_failure_ignored (fun _ w => w) attempt_start_state 5
     (by decide) (by decide) (by decide)
     ⟨rfl, fun _ => by decide, fun n hn => absurd hn (List.not_mem_nil n)⟩⟩

end HttpsClient
